import Mathlib

/-!
Verification of the core trading logic of the `tradingbot` repository.

The development shallowly embeds the two central source files:

* `src/strategies/moving_average.py` — the `MovingAverageCrossover`
  strategy (`generate_signal`, `calculate_indicators`);
* `src/trading_bot.py` — `TradingBot.backtest` (the bar-by-bar trade
  simulation loop and its metrics block) and `TradingBot.execute_trade`
  (the live dedup-gating path).

Modelling conventions:

* Prices and index timestamps are rationals (`ℚ`); the Python code uses
  IEEE floats, and the claims under study are structural, not about
  float rounding.
* A pandas `Series` value that is NaN (an undefined rolling mean) is
  `none : Option ℚ`.  Every comparison involving NaN is `False` in
  pandas/numpy, which the `opt*` comparison helpers reproduce; the one
  exception is `!=`, for which `NaN != x` is `True`, reproduced where
  the metrics block filters `returns != 0`.
* A Python function that can raise is embedded with an `Option`/`Except`
  result, `none`/`error` standing for the escaped exception.
-/

namespace Tradingbot

/-- The signal strings `'buy' | 'sell' | 'hold'` produced by the strategy. -/
inductive Signal
  | buy
  | sell
  | hold
deriving DecidableEq, Repr, Inhabited

/-- Pandas comparison `a <= b` on possibly-NaN values: any comparison with
NaN is `False`. -/
def optLE : Option ℚ → Option ℚ → Bool
  | some a, some b => decide (a ≤ b)
  | _, _ => false

/-- Pandas comparison `a < b` on possibly-NaN values. -/
def optLT : Option ℚ → Option ℚ → Bool
  | some a, some b => decide (a < b)
  | _, _ => false

/-- Pandas comparison `a >= b` on possibly-NaN values. -/
def optGE : Option ℚ → Option ℚ → Bool
  | some a, some b => decide (b ≤ a)
  | _, _ => false

/-- Pandas comparison `a > b` on possibly-NaN values. -/
def optGT : Option ℚ → Option ℚ → Bool
  | some a, some b => decide (b < a)
  | _, _ => false

/-- Entry `i` of `closes.rolling(window=w).mean()`
(`moving_average.py` lines 92-93 and 148-149): the arithmetic mean of the
trailing `w` closes ending at `i`, NaN (`none`) while fewer than `w`
observations are available (pandas `min_periods` defaults to the window
size).  Out-of-range access is also `none`. -/
def maOf (w : Nat) (xs : List ℚ) (i : Nat) : Option ℚ :=
  if 1 ≤ w ∧ w ≤ i + 1 ∧ i < xs.length then
    some (((xs.drop (i + 1 - w)).take w).sum / (w : ℚ))
  else none

/-- The rolling-mean column as a list, one entry per row of the frame. -/
def rollingMean (w : Nat) (xs : List ℚ) : List (Option ℚ) :=
  (List.range xs.length).map (maOf w xs)

/-- The crossover test of `generate_signal` (`moving_average.py` lines
102-115), on the previous and current short/long means: `buy` when the
short mean was `<=` the long mean and is now `>`, `sell` symmetrically,
`hold` otherwise (in particular whenever a NaN is involved). -/
def crossSignal (ps pl cs cl : Option ℚ) : Signal :=
  if optLE ps pl && optGT cs cl then .buy
  else if optGE ps pl && optLT cs cl then .sell
  else .hold

/-- `MovingAverageCrossover.generate_signal` (`moving_average.py` lines
59-115) for a configuration `short_window = sw`, `long_window = lw`.

Returns `some` signal, or `none` for the `IndexError` that
`short_ma.iloc[-2]` raises when the series has fewer than two rows (only
reachable when `lw ≤ 1`, since series shorter than `lw` take the early
`hold` return). -/
def generate_signal (sw lw : Nat) (closes : List ℚ) : Option Signal :=
  if closes.length < lw then some .hold
  else if 2 ≤ closes.length then
    some (crossSignal
      (maOf sw closes (closes.length - 2)) (maOf lw closes (closes.length - 2))
      (maOf sw closes (closes.length - 1)) (maOf lw closes (closes.length - 1)))
  else none

/-- Entry `i` of `short_ma.shift(1)` / `long_ma.shift(1)`: NaN at row 0,
otherwise the previous row of the rolling mean. -/
def maShift (w : Nat) (xs : List ℚ) (i : Nat) : Option ℚ :=
  if i = 0 then none else maOf w xs (i - 1)

/-- Row `i` of the `signal` column built by
`MovingAverageCrossover.calculate_indicators` (`moving_average.py` lines
151-165): the column starts as `'hold'`, then the buy-mask rows are set
to `'buy'`, then the sell-mask rows to `'sell'`; so per row the sell mask
wins over the buy mask, which wins over `'hold'`. -/
def calcSignalAt (sw lw : Nat) (xs : List ℚ) (i : Nat) : Signal :=
  if optLT (maOf sw xs i) (maOf lw xs i) &&
      optGE (maShift sw xs i) (maShift lw xs i) then .sell
  else if optGT (maOf sw xs i) (maOf lw xs i) &&
      optLE (maShift sw xs i) (maShift lw xs i) then .buy
  else .hold

/-- The whole `signal` column of `calculate_indicators`, one entry per row. -/
def calcSignalList (sw lw : Nat) (xs : List ℚ) : List Signal :=
  (List.range xs.length).map (calcSignalAt sw lw xs)

/-- The `action` tag of the trade records accumulated by
`TradingBot.backtest` (`trading_bot.py` lines 508-528). -/
inductive Act
  | BUY
  | SELL
deriving DecidableEq, Repr

/-- One entry of the `trades` list of `TradingBot.backtest`: the `BUY`
records carry `{time, action, price}`, the `SELL` records additionally
carry the realized `profit`. -/
structure TradeRec where
  time : ℚ
  action : Act
  price : ℚ
  profit : Option ℚ
deriving DecidableEq, Repr

/-- The loop state of the simulation in `TradingBot.backtest`
(`trading_bot.py` lines 489-528): `position` (the Python ints `0`/`1`),
the `entry_price` variable, the `returns` Series (`none` = still NaN,
i.e. never assigned), and the accumulated `trades` list. -/
structure SimState where
  position : Nat
  entry_price : ℚ
  returns : List (Option ℚ)
  trades : List TradeRec
deriving DecidableEq, Repr

/-- One iteration of the backtest loop (`trading_bot.py` lines 500-528)
at loop index `i`: signal and price are both read from bar `i - 1`;
a `buy` signal while flat opens a position, a `sell` signal while long
closes it, writing `returns.iloc[i]` and recording the trade; every
other combination leaves the state untouched. -/
def simStep (signals : List Signal) (prices times : List ℚ)
    (st : SimState) (i : Nat) : SimState :=
  if signals.getD (i - 1) .hold = .buy ∧ st.position = 0 then
    { st with
      position := 1
      entry_price := prices.getD (i - 1) 0
      trades := st.trades ++
        [{ time := times.getD (i - 1) 0, action := .BUY,
           price := prices.getD (i - 1) 0, profit := none }] }
  else if signals.getD (i - 1) .hold = .sell ∧ st.position = 1 then
    { st with
      position := 0
      returns := st.returns.set i (some (prices.getD (i - 1) 0 / st.entry_price - 1))
      trades := st.trades ++
        [{ time := times.getD (i - 1) 0, action := .SELL,
           price := prices.getD (i - 1) 0,
           profit := some (prices.getD (i - 1) 0 / st.entry_price - 1) }] }
  else st

/-- The state at the top of the loop: `returns = pd.Series(index=...)`
(all NaN), `position = 0`, no trades.  The Python `entry_price` variable
is still unbound there; it is only ever read after a buy has bound it,
so the placeholder value `0` is never observable. -/
def simInit (signals : List Signal) : SimState :=
  { position := 0, entry_price := 0,
    returns := List.replicate signals.length none, trades := [] }

/-- The whole simulation loop `for i in range(1, len(signals))`
(`trading_bot.py` lines 499-528). -/
def simulate (signals : List Signal) (prices times : List ℚ) : SimState :=
  (List.range' 1 (signals.length - 1)).foldl (simStep signals prices times) (simInit signals)

/-- The pandas boolean test `r != 0` applied to one slot of the `returns`
Series: for a NaN slot (`none`) the numpy comparison `NaN != 0` is
`True`, so unset slots pass this filter. -/
def neZeroSlot : Option ℚ → Bool
  | none => true
  | some r => decide (r ≠ 0)

/-- `r > 0` on one slot of `returns`: `False` on NaN. -/
def posSlot : Option ℚ → Bool
  | none => false
  | some r => decide (0 < r)

/-- `r < 0` on one slot of `returns`: `False` on NaN. -/
def negSlot : Option ℚ → Bool
  | none => false
  | some r => decide (r < 0)

/-- One factor of `(1 + returns).prod()`: pandas `prod` has
`skipna=True`, so a NaN slot contributes the multiplicative unit. -/
def prodFactor : Option ℚ → ℚ
  | none => 1
  | some r => 1 + r

/-- The metrics record assembled by `TradingBot.backtest`
(`trading_bot.py` lines 542-550). -/
structure Metrics where
  total_trades : Nat
  winning_trades : Nat
  losing_trades : Nat
  win_rate : ℚ
  avg_win : ℚ
  avg_loss : ℚ
  cumulative_return : ℚ
deriving DecidableEq, Repr

/-- The metrics block of `TradingBot.backtest` (`trading_bot.py` lines
530-550), a function of the `returns` Series:
`total_trades = len(returns[returns != 0])`,
`winning_trades = len(returns[returns > 0])`,
`losing_trades = len(returns[returns < 0])`,
`win_rate = winning/total` guarded against division by zero, the two
conditional means, and `cumulative_return = (1 + returns).prod() - 1`. -/
def metricsOf (rs : List (Option ℚ)) : Metrics :=
  let total := (rs.filter neZeroSlot).length
  let winning := (rs.filter posSlot).length
  let losing := (rs.filter negSlot).length
  let wins := rs.filterMap (fun o => if posSlot o then o else none)
  let losses := rs.filterMap (fun o => if negSlot o then o else none)
  { total_trades := total
    winning_trades := winning
    losing_trades := losing
    win_rate := if 0 < total then (winning : ℚ) / (total : ℚ) else 0
    avg_win := if 0 < winning then wins.sum / (winning : ℚ) else 0
    avg_loss := if 0 < losing then losses.sum / (losing : ℚ) else 0
    cumulative_return := (rs.map prodFactor).prod - 1 }

/-- The `return_pct` values of the completed (SELL-closing) trades, in
order of emission. -/
def sellReturns (trades : List TradeRec) : List ℚ :=
  trades.filterMap (fun t =>
    match t.action, t.profit with
    | .SELL, some r => some r
    | _, _ => none)

/-- Invariant of the backtest loop, parametrized by the length `N` of
the `returns` Series and the next loop index `i`: the Series keeps its
length, the skip-NaN product of `(1 + returns)` equals the product of
`(1 + return_pct)` over the completed (SELL) trades recorded so far, and
every slot from `i` on is still NaN (unset). -/
def SimInv (N i : Nat) (st : SimState) : Prop :=
  st.returns.length = N ∧
  (st.returns.map prodFactor).prod = ((sellReturns st.trades).map (fun r => 1 + r)).prod ∧
  ∀ j, i ≤ j → j < N → st.returns[j]? = some none

/-- A DataFrame as seen by the strategy: the time index, the `close`
column, and the three columns `calculate_indicators` may add (`none` =
column absent). -/
structure Frame where
  index : List ℚ
  close : List ℚ
  short_ma : Option (List (Option ℚ)) := none
  long_ma : Option (List (Option ℚ)) := none
  signal : Option (List Signal) := none
deriving DecidableEq, Repr, Inhabited

/-- In-place mutation of the frame object at handle `h` of an object
store (a store models the Python heap: each list slot is one DataFrame
object; handles are slots).  Out-of-range handles leave the store
unchanged. -/
def heapWrite (store : List Frame) (h : Nat) (upd : Frame → Frame) : List Frame :=
  store.set h (upd (store.getD h default))

/-- `MovingAverageCrossover.calculate_indicators` (`moving_average.py`
lines 117-167) against an explicit object store: `result = data.copy()`
allocates a fresh frame at handle `store.length` holding the same
contents, and every subsequent column assignment
(`result['short_ma'] = ...`, `result['long_ma'] = ...`, the `'hold'`
initialization and the two `.loc` mask assignments of `result['signal']`)
writes to that fresh handle only.  Returns the final store and the
handle of the returned frame. -/
def calculate_indicators_heap (sw lw : Nat) (store : List Frame) (dataH : Nat) :
    List Frame × Nat :=
  let data := store.getD dataH default
  let rh := store.length
  let s1 := store ++ [data]
  let s2 := heapWrite s1 rh (fun f => { f with short_ma := some (rollingMean sw f.close) })
  let s3 := heapWrite s2 rh (fun f => { f with long_ma := some (rollingMean lw f.close) })
  let s4 := heapWrite s3 rh (fun f => { f with signal := some (calcSignalList sw lw f.close) })
  (s4, rh)

/-- `MovingAverageCrossover.generate_signal` against the object store:
its body (`moving_average.py` lines 85-115) only builds fresh rolling
Series and reads scalars from them — it contains no assignment to any
frame object, so the store passes through untouched. -/
def generate_signal_heap (sw lw : Nat) (store : List Frame) (dataH : Nat) :
    List Frame × Option Signal :=
  (store, generate_signal sw lw (store.getD dataH default).close)

/-- The input to `TradingBot.backtest` as fetched by
`fetch_market_data`: a time index (one entry per row) and possibly a
`close` column (`none` models a frame without one, the internal-failure
example of the spec). -/
structure BFrame where
  index : List ℚ
  close_col : Option (List ℚ)
deriving DecidableEq, Repr

/-- Result status of `TradingBot.backtest`. -/
inductive BStatus
  | success
  | error
deriving DecidableEq, Repr

/-- The dictionary `TradingBot.backtest` returns: a status tag, a reason
on the error path, metrics on the success path. -/
structure BacktestResult where
  status : BStatus
  reason : Option String
  metrics : Option Metrics
deriving DecidableEq, Repr

/-- The body of the `try` block of `TradingBot.backtest` after the
empty-data check (`trading_bot.py` lines 481-564): accessing the missing
`close` column inside `calculate_indicators` raises `KeyError`
(`Except.error`); otherwise the signal column is computed, the
simulation loop runs with `prices = strategy_data['close']` and the
frame index as trade times, and the metrics block produces the result. -/
def backtestBody (sw lw : Nat) (data : BFrame) : Except String Metrics :=
  match data.close_col with
  | none => Except.error "KeyError: close"
  | some closes =>
    let signals := calcSignalList sw lw closes
    let st := simulate signals closes data.index
    Except.ok (metricsOf st.returns)

/-- `TradingBot.backtest` (`trading_bot.py` lines 436-570), with the
fetched market data passed in (`start_date`/`end_date` at their `None`
defaults, plotting disabled): an empty frame returns the tagged
`No data available` error result (line 467-469); any exception raised in
the body is caught by the `except` clause (lines 566-570) and turned
into a tagged error result carrying the exception text. -/
def backtest (sw lw : Nat) (data : BFrame) : BacktestResult :=
  if data.index.length = 0 then
    { status := .error, reason := some "No data available", metrics := none }
  else
    match backtestBody sw lw data with
    | .ok m => { status := .success, reason := none, metrics := some m }
    | .error e => { status := .error, reason := some e, metrics := none }

/-- Outcome of `KrakenClient.create_order` as observed by
`execute_trade`: either the call raises, or it returns a response
dictionary with an `error` list and a `txid` list. -/
inductive OrderOutcome
  | raises (msg : String)
  | response (err : List String) (txid : List String)
deriving DecidableEq, Repr

/-- The exchange environment `execute_trade` runs against: the ticker
price (`none` when `get_ticker` fails or lacks the `c` field) and the
outcome of a buy resp. sell order. -/
structure ExchangeEnv where
  ticker_price : Option ℚ
  buy_order : OrderOutcome
  sell_order : OrderOutcome
deriving DecidableEq, Repr

/-- One entry of `TradingBot.trades_history` (`trading_bot.py` lines
335-342 and 404-411), reduced to the fields `execute_trade` writes from
its own state: trade type and reference price. -/
structure HistRec where
  htype : String
  hprice : Option ℚ
deriving DecidableEq, Repr

/-- The bot state `execute_trade` reads and writes: `last_action`
(initialized to the string `none` in `__init__`, line 88) and the trade
history. -/
structure BotState where
  last_action : String
  trades_history : List HistRec
deriving DecidableEq, Repr

/-- Status tag of the dictionary returned by `execute_trade`. -/
inductive ExecStatus
  | success
  | no_trade
  | error
deriving DecidableEq, Repr

/-- The dictionary returned by `execute_trade`: status, executed action
(success only), reason (no-trade and error paths). -/
structure ExecResult where
  status : ExecStatus
  action : Option String
  reason : Option String
deriving DecidableEq, Repr

/-- `TradingBot.execute_trade` (`trading_bot.py` lines 251-434) as a
function of the exchange environment, the bot state and the incoming
signal string.  A `hold` signal or a repeat of `last_action` short
circuits to `no_trade` (lines 272-276); a buy/sell order that raises or
whose response carries a nonempty `error` list returns an `error`
result leaving the state alone; an unknown signal returns an `error`
result (lines 426-429); only the fall-through after a successful order
(lines 431-434) appends to the history and sets `last_action`. -/
def execute_trade (env : ExchangeEnv) (st : BotState) (signal : String) :
    ExecResult × BotState :=
  if signal = "hold" ∨ signal = st.last_action then
    ({ status := .no_trade, action := none,
       reason := some ("Signal: " ++ signal ++ ", Last action: " ++ st.last_action) }, st)
  else if signal = "buy" then
    match env.buy_order with
    | .raises msg => ({ status := .error, action := none, reason := some msg }, st)
    | .response err _ =>
      if err ≠ [] then
        ({ status := .error, action := none, reason := some (String.intercalate "," err) }, st)
      else
        ({ status := .success, action := some signal, reason := none },
         { last_action := signal
           trades_history := st.trades_history ++ [{ htype := "buy", hprice := env.ticker_price }] })
  else if signal = "sell" then
    match env.sell_order with
    | .raises msg => ({ status := .error, action := none, reason := some msg }, st)
    | .response err _ =>
      if err ≠ [] then
        ({ status := .error, action := none, reason := some (String.intercalate "," err) }, st)
      else
        ({ status := .success, action := some signal, reason := none },
         { last_action := signal
           trades_history := st.trades_history ++ [{ htype := "sell", hprice := env.ticker_price }] })
  else
    ({ status := .error, action := none, reason := some ("Unknown signal: " ++ signal) }, st)

/-- A concrete exchange environment whose orders succeed with an empty
`error` list (used to instantiate the `execute_trade` theorem). -/
def okEnv : ExchangeEnv :=
  { ticker_price := none, buy_order := .response [] [], sell_order := .response [] [] }

/-- The freshly initialized bot state (`__init__`, lines 88-90):
`last_action = 'none'`, empty history. -/
def initBot : BotState := { last_action := "none", trades_history := [] }

/-! ### Helper lemmas -/

@[simp]
lemma optLE_none_right (a : Option ℚ) : optLE a none = false := by cases a <;> rfl

@[simp]
lemma optLT_none_right (a : Option ℚ) : optLT a none = false := by cases a <;> rfl

@[simp]
lemma optGE_none_right (a : Option ℚ) : optGE a none = false := by cases a <;> rfl

@[simp]
lemma optGT_none_right (a : Option ℚ) : optGT a none = false := by cases a <;> rfl

@[simp]
lemma optLE_none_left (a : Option ℚ) : optLE none a = false := by cases a <;> rfl

@[simp]
lemma optLT_none_left (a : Option ℚ) : optLT none a = false := by cases a <;> rfl

@[simp]
lemma optGE_none_left (a : Option ℚ) : optGE none a = false := by cases a <;> rfl

@[simp]
lemma optGT_none_left (a : Option ℚ) : optGT none a = false := by cases a <;> rfl

/-- The buy-first branch order of `generate_signal` computes the same
signal as the sell-mask-last order of `calculate_indicators`: the buy
and sell conditions are mutually exclusive (they disagree on the strict
comparison of the current means). -/
lemma crossSignal_eq_sell_first (ps pl cs cl : Option ℚ) :
    crossSignal ps pl cs cl =
      if optLT cs cl && optGE ps pl then .sell
      else if optGT cs cl && optLE ps pl then .buy
      else .hold := by
  rcases cs with _ | c <;> rcases cl with _ | d <;> rcases ps with _ | a <;> rcases pl with _ | b <;>
    simp only [crossSignal, optLE, optLT, optGE, optGT, optLE_none_left, optLE_none_right,
      optLT_none_left, optLT_none_right, optGE_none_left, optGE_none_right,
      optGT_none_left, optGT_none_right, Bool.false_and, Bool.and_false,
      if_false, Bool.false_eq_true, Bool.and_eq_true, decide_eq_true_eq] <;>
    try rfl
  by_cases hbuy : a ≤ b ∧ d < c
  · rw [if_pos hbuy, if_neg (fun hc => absurd hc.1 (not_lt.mpr hbuy.2.le)),
      if_pos ⟨hbuy.2, hbuy.1⟩]
  · by_cases hsell : b ≤ a ∧ c < d
    · rw [if_neg hbuy, if_pos hsell, if_pos ⟨hsell.2, hsell.1⟩]
    · rw [if_neg hbuy, if_neg hsell, if_neg (fun hc => hsell ⟨hc.2, hc.1⟩),
        if_neg (fun hc => hbuy ⟨hc.2, hc.1⟩)]

/-- The last row of the `signal` column, for a nonempty series. -/
lemma calcSignalList_getLast (sw lw : Nat) (xs : List ℚ) (h : xs ≠ []) :
    (calcSignalList sw lw xs).getLast? = some (calcSignalAt sw lw xs (xs.length - 1)) := by
  have hl : 0 < xs.length := List.length_pos.mpr h
  rw [calcSignalList, List.getLast?_eq_getElem?]
  simp only [List.length_map, List.length_range, List.getElem?_map,
    List.getElem?_range (Nat.sub_lt hl Nat.one_pos), Option.map_some']

/-- Appending a BUY record leaves the completed-trade returns alone. -/
lemma sellReturns_append_BUY (tr : List TradeRec) (x p : ℚ) :
    sellReturns (tr ++ [{ time := x, action := .BUY, price := p, profit := none }]) =
      sellReturns tr := by
  simp [sellReturns, List.filterMap_append]

/-- Appending a SELL record with profit `r` appends `r` to the
completed-trade returns. -/
lemma sellReturns_append_SELL (tr : List TradeRec) (x p r : ℚ) :
    sellReturns (tr ++ [{ time := x, action := .SELL, price := p, profit := some r }]) =
      sellReturns tr ++ [r] := by
  simp [sellReturns, List.filterMap_append]

/-- Setting a still-NaN slot of the `returns` Series to `r` multiplies
the skip-NaN product of `(1 + returns)` by `1 + r`. -/
lemma prodFactor_set (rs : List (Option ℚ)) (i : Nat) (r : ℚ) (h : rs[i]? = some none) :
    ((rs.set i (some r)).map prodFactor).prod = (1 + r) * (rs.map prodFactor).prod := by
  induction rs generalizing i with
  | nil => simp at h
  | cons x xs ih =>
    cases i with
    | zero =>
      simp only [List.getElem?_cons_zero, Option.some.injEq] at h
      subst h
      simp [prodFactor]
    | succ n =>
      simp only [List.getElem?_cons_succ] at h
      simp only [List.set_cons_succ, List.map_cons, List.prod_cons, ih n h]
      ring

/-- One loop iteration preserves the simulation invariant. -/
lemma simStep_inv (signals : List Signal) (prices times : List ℚ) (N i : Nat) (st : SimState)
    (hiN : i < N) (h : SimInv N i st) :
    SimInv N (i + 1) (simStep signals prices times st i) := by
  obtain ⟨hlen, hprod, hnone⟩ := h
  unfold simStep
  split_ifs with h1 h2
  · refine ⟨hlen, ?_, fun j hj hjN => hnone j (by omega) hjN⟩
    rw [sellReturns_append_BUY]
    exact hprod
  · have hri : st.returns[i]? = some none := hnone i (le_refl i) hiN
    refine ⟨by simp [hlen], ?_, ?_⟩
    · rw [prodFactor_set st.returns i _ hri, hprod, sellReturns_append_SELL]
      simp [mul_comm]
    · intro j hj hjN
      rw [List.getElem?_set_ne (by omega : i ≠ j)]
      exact hnone j (by omega) hjN
  · exact ⟨hlen, hprod, fun j hj hjN => hnone j (by omega) hjN⟩

/-- The fold over loop indices `start..start+cnt-1` preserves the
simulation invariant. -/
lemma sim_fold_inv (signals : List Signal) (prices times : List ℚ) (N : Nat) :
    ∀ (cnt start : Nat) (st : SimState), SimInv N start st → start + cnt ≤ N →
      SimInv N (start + cnt)
        ((List.range' start cnt).foldl (simStep signals prices times) st) := by
  intro cnt
  induction cnt with
  | zero =>
    intro start st h _
    simpa using h
  | succ k ih =>
    intro start st h hle
    rw [List.range'_succ, List.foldl_cons]
    have h1 := simStep_inv signals prices times N start st (by omega) h
    have h2 := ih (start + 1) (simStep signals prices times st start) h1 (by omega)
    have harr : start + (k + 1) = start + 1 + k := by omega
    rw [harr]
    exact h2

/-! ### Claim theorems -/

/-- C7: for every bar series whose length is strictly less than the
configured `long_window`, `generate_signal` returns `hold` (the early
return before any moving average is computed); insufficient data is a
defined fallback, never an error. -/
theorem generate_signal_short_series_hold (sw lw : Nat) (closes : List ℚ)
    (h : closes.length < lw) : generate_signal sw lw closes = some .hold := by
  simp [generate_signal, h]

theorem generate_signal_short_series_hold_witness :
    ([] : List ℚ).length < 50 ∧ generate_signal 20 50 [] = some .hold :=
  ⟨by decide, generate_signal_short_series_hold 20 50 [] (by decide)⟩

/-- C6: crossover detection is boundary-exact.  For every row `i` whose
short and long moving averages are defined at `i` and at `i - 1`, the
`signal` column of `calculate_indicators` holds `buy` iff
`short_ma[i] > long_ma[i]` and `short_ma[i-1] <= long_ma[i-1]`, and
`sell` iff `short_ma[i] < long_ma[i]` and `short_ma[i-1] >= long_ma[i-1]`;
in particular equality of the two averages on the prior bar counts as
not-yet-crossed, so it yields `buy` once strict inequality appears. -/
theorem crossover_boundary_exact (sw lw : Nat) (xs : List ℚ) (i : Nat)
    (si li ps pl : ℚ) (hi : 1 ≤ i)
    (hsi : maOf sw xs i = some si) (hli : maOf lw xs i = some li)
    (hps : maOf sw xs (i - 1) = some ps) (hpl : maOf lw xs (i - 1) = some pl) :
    (calcSignalAt sw lw xs i = .buy ↔ (li < si ∧ ps ≤ pl)) ∧
    (calcSignalAt sw lw xs i = .sell ↔ (si < li ∧ pl ≤ ps)) := by
  have hi0 : i ≠ 0 := by omega
  simp only [calcSignalAt, maShift, if_neg hi0, hsi, hli, hps, hpl, optLT, optGE, optGT, optLE,
    Bool.and_eq_true, decide_eq_true_eq]
  split_ifs with h1 h2
  · constructor
    · constructor
      · intro h; exact absurd h (by simp)
      · intro h; exact absurd h1.1 (not_lt.mpr h.1.le)
    · exact ⟨fun _ => ⟨h1.1, h1.2⟩, fun _ => rfl⟩
  · constructor
    · exact ⟨fun _ => ⟨h2.1, h2.2⟩, fun _ => rfl⟩
    · constructor
      · intro h; exact absurd h (by simp)
      · intro h; exact absurd h2.1 (not_lt.mpr h.1.le)
  · constructor
    · constructor
      · intro h; exact absurd h (by simp)
      · intro h; exact absurd ⟨h.1, h.2⟩ h2
    · constructor
      · intro h; exact absurd h (by simp)
      · intro h; exact absurd ⟨h.1, h.2⟩ h1

theorem crossover_boundary_exact_witness :
    maOf 1 [1, 1, 2] 2 = some 2 ∧ maOf 2 [1, 1, 2] 2 = some (3 / 2) ∧
    maOf 1 [1, 1, 2] 1 = some 1 ∧ maOf 2 [1, 1, 2] 1 = some 1 ∧
    (calcSignalAt 1 2 [1, 1, 2] 2 = .buy ↔ ((3 / 2 : ℚ) < 2 ∧ (1 : ℚ) ≤ 1)) ∧
    (calcSignalAt 1 2 [1, 1, 2] 2 = .sell ↔ ((2 : ℚ) < 3 / 2 ∧ (1 : ℚ) ≤ 1)) := by
  have h1 : maOf 1 [1, 1, 2] 2 = some 2 := by norm_num [maOf]
  have h2 : maOf 2 [1, 1, 2] 2 = some (3 / 2) := by norm_num [maOf]
  have h3 : maOf 1 [1, 1, 2] 1 = some 1 := by norm_num [maOf]
  have h4 : maOf 2 [1, 1, 2] 1 = some 1 := by norm_num [maOf]
  exact ⟨h1, h2, h3, h4,
    (crossover_boundary_exact 1 2 [1, 1, 2] 2 2 (3 / 2) 1 1 (by norm_num) h1 h2 h3 h4).1,
    (crossover_boundary_exact 1 2 [1, 1, 2] 2 2 (3 / 2) 1 1 (by norm_num) h1 h2 h3 h4).2⟩

/-- C1 (amended): for positive windows, the signal `calculate_indicators`
assigns to the last row of a nonempty series equals what
`generate_signal` returns for the same series, provided the series has
at least two bars or is shorter than `long_window`.  The one excluded
configuration — a single-bar series with `long_window ≤ 1` — is where
`generate_signal` raises `IndexError` on `short_ma.iloc[-2]` (see the
counterexample below); in every other configuration, including series
too short for the lookback and series whose previous-bar means are NaN,
the two functions agree. -/
theorem generate_signal_agrees_with_last_row (sw lw : Nat) (closes : List ℚ)
    (hsw : 1 ≤ sw) (hlw : 1 ≤ lw) (hne : closes ≠ [])
    (hdom : 2 ≤ closes.length ∨ closes.length < lw) :
    generate_signal sw lw closes = (calcSignalList sw lw closes).getLast? := by
  rw [calcSignalList_getLast sw lw closes hne]
  have hn : 1 ≤ closes.length := List.length_pos.mpr hne
  by_cases hshort : closes.length < lw
  · rw [generate_signal, if_pos hshort]
    have hnone : maOf lw closes (closes.length - 1) = none := by
      unfold maOf
      rw [if_neg]
      intro hc
      omega
    simp [calcSignalAt, hnone]
  · have h2 : 2 ≤ closes.length := by
      rcases hdom with h | h
      · exact h
      · exact absurd h hshort
    rw [generate_signal, if_neg hshort, if_pos h2]
    have hne1 : closes.length - 1 ≠ 0 := by omega
    have hsub : closes.length - 1 - 1 = closes.length - 2 := by omega
    rw [crossSignal_eq_sell_first]
    simp only [calcSignalAt, maShift, if_neg hne1, hsub]

theorem generate_signal_agrees_with_last_row_witness :
    1 ≤ 20 ∧ 1 ≤ 50 ∧ ([(1 : ℚ), 2] ≠ []) ∧ 2 ≤ [(1 : ℚ), 2].length ∧
    generate_signal 20 50 [1, 2] = (calcSignalList 20 50 [1, 2]).getLast? :=
  ⟨by decide, by decide, by simp, by decide,
    generate_signal_agrees_with_last_row 20 50 [1, 2] (by decide) (by decide) (by simp)
      (Or.inr (by decide))⟩

/-- C1 counterexample to the claim as stated: at the configuration
`short_window = long_window = 1` on the single-bar series `[100]`,
`generate_signal` raises `IndexError` (embedded as `none`) while
`calculate_indicators` assigns `hold` to the last (only) row, so the two
are not equal for *every* configuration. -/
theorem generate_signal_last_row_one_bar_counterexample :
    generate_signal 1 1 [100] = none ∧
    (calcSignalList 1 1 [100]).getLast? = some .hold ∧
    generate_signal 1 1 [100] ≠ (calcSignalList 1 1 [100]).getLast? := by
  have hg : generate_signal 1 1 [100] = none := by norm_num [generate_signal]
  have hc : (calcSignalList 1 1 [100]).getLast? = some .hold := by
    norm_num [calcSignalList, calcSignalAt, maOf, maShift, List.range_succ]
  exact ⟨hg, hc, by rw [hg, hc]; simp⟩

/-- C3: the backtest loop steps through indices `1..N-1` (the fold over
`List.range' 1 (N-1)`), and at step `i` it opens a position exactly when
flat on a `buy` signal from bar `i-1`, recording
`entry_price = close[i-1]` and `entry_time = time[i-1]`, and closes
exactly when long on a `sell` signal from bar `i-1`, recording
`exit_price = close[i-1]`, `exit_time = time[i-1]` and a trade return of
`exit_price / entry_price - 1`; price and signal both come from bar
`i-1`, never from bar `i`. -/
theorem backtest_one_bar_lag (signals : List Signal) (prices times : List ℚ) :
    (simulate signals prices times =
      (List.range' 1 (signals.length - 1)).foldl (simStep signals prices times)
        (simInit signals)) ∧
    (∀ st i, signals.getD (i - 1) .hold = .buy → st.position = 0 →
      simStep signals prices times st i =
        { st with
          position := 1
          entry_price := prices.getD (i - 1) 0
          trades := st.trades ++
            [{ time := times.getD (i - 1) 0, action := .BUY,
               price := prices.getD (i - 1) 0, profit := none }] }) ∧
    (∀ st i, signals.getD (i - 1) .hold = .sell → st.position = 1 →
      simStep signals prices times st i =
        { st with
          position := 0
          returns := st.returns.set i (some (prices.getD (i - 1) 0 / st.entry_price - 1))
          trades := st.trades ++
            [{ time := times.getD (i - 1) 0, action := .SELL,
               price := prices.getD (i - 1) 0,
               profit := some (prices.getD (i - 1) 0 / st.entry_price - 1) }] }) := by
  refine ⟨rfl, ?_, ?_⟩
  · intro st i hs hp
    unfold simStep
    rw [if_pos ⟨hs, hp⟩]
  · intro st i hs hp
    have h1 : ¬(signals.getD (i - 1) .hold = .buy ∧ st.position = 0) := by
      rintro ⟨ha, _⟩
      rw [hs] at ha
      cases ha
    unfold simStep
    rw [if_neg h1, if_pos ⟨hs, hp⟩]

theorem backtest_one_bar_lag_witness :
    [Signal.buy, Signal.sell].getD 0 .hold = .buy ∧
    (simInit [Signal.buy, Signal.sell]).position = 0 ∧
    simStep [Signal.buy, Signal.sell] [10, 11] [0, 1] (simInit [Signal.buy, Signal.sell]) 1 =
      { simInit [Signal.buy, Signal.sell] with
        position := 1
        entry_price := [(10 : ℚ), 11].getD 0 0
        trades := (simInit [Signal.buy, Signal.sell]).trades ++
          [{ time := [(0 : ℚ), 1].getD 0 0, action := .BUY,
             price := [(10 : ℚ), 11].getD 0 0, profit := none }] } :=
  ⟨by decide, rfl,
    (backtest_one_bar_lag [Signal.buy, Signal.sell] [10, 11] [0, 1]).2.1
      (simInit [Signal.buy, Signal.sell]) 1 (by decide) rfl⟩

/-- C4: at every step of a backtest the position is exactly flat (`0`)
or long (`1`) — never short, never two simultaneous open trades — and a
`sell` signal while flat, a `buy` signal while long, and any `hold`
signal each leave the state unchanged: no transition, no trade record. -/
theorem position_flat_or_long_invariant (signals : List Signal) (prices times : List ℚ) :
    (∀ cnt,
      ((List.range' 1 cnt).foldl (simStep signals prices times) (simInit signals)).position = 0 ∨
      ((List.range' 1 cnt).foldl (simStep signals prices times) (simInit signals)).position = 1) ∧
    (∀ st i,
      (signals.getD (i - 1) .hold = .sell ∧ st.position = 0) ∨
      (signals.getD (i - 1) .hold = .buy ∧ st.position = 1) ∨
      signals.getD (i - 1) .hold = .hold →
      simStep signals prices times st i = st) := by
  constructor
  · have main : ∀ (l : List Nat) (st : SimState), st.position = 0 ∨ st.position = 1 →
        ((l.foldl (simStep signals prices times) st).position = 0 ∨
         (l.foldl (simStep signals prices times) st).position = 1) := by
      intro l
      induction l with
      | nil => intro st h; exact h
      | cons a l ih =>
        intro st h
        apply ih
        unfold simStep
        split_ifs with h1 h2
        · right; rfl
        · left; rfl
        · exact h
    intro cnt
    exact main (List.range' 1 cnt) (simInit signals) (Or.inl rfl)
  · intro st i h
    unfold simStep
    rcases h with ⟨hs, hp⟩ | ⟨hs, hp⟩ | hs
    · rw [if_neg, if_neg]
      · rintro ⟨-, hb⟩
        rw [hp] at hb
        cases hb
      · rintro ⟨ha, -⟩
        rw [hs] at ha
        cases ha
    · rw [if_neg, if_neg]
      · rintro ⟨ha, -⟩
        rw [hs] at ha
        cases ha
      · rintro ⟨-, hb⟩
        rw [hp] at hb
        cases hb
    · rw [if_neg, if_neg]
      · rintro ⟨ha, -⟩
        rw [hs] at ha
        cases ha
      · rintro ⟨ha, -⟩
        rw [hs] at ha
        cases ha

theorem position_flat_or_long_invariant_witness :
    [Signal.sell].getD 0 .hold = .sell ∧
    (simInit [Signal.sell]).position = 0 ∧
    simStep [Signal.sell] [10] [0] (simInit [Signal.sell]) 1 = simInit [Signal.sell] :=
  ⟨by decide, rfl,
    (position_flat_or_long_invariant [Signal.sell] [10] [0]).2 (simInit [Signal.sell]) 1
      (Or.inl ⟨by decide, rfl⟩)⟩

/-- C10: `execute_trade` updates `last_action` to the incoming signal
exactly on results with status `success`; on every `no_trade` or `error`
result (a hold signal, a repeat of the last action, an exchange API
error response, a raised exception, or an unknown signal) `last_action`
is left unchanged. -/
theorem execute_trade_last_action_success_only (env : ExchangeEnv) (st : BotState)
    (signal : String) :
    ((execute_trade env st signal).1.status = .success →
      (execute_trade env st signal).2.last_action = signal) ∧
    ((execute_trade env st signal).1.status ≠ .success →
      (execute_trade env st signal).2.last_action = st.last_action) := by
  by_cases h1 : signal = "hold" ∨ signal = st.last_action
  · simp [execute_trade, h1]
  · push_neg at h1
    obtain ⟨h1a, h1b⟩ := h1
    by_cases h2 : signal = "buy"
    · subst h2
      cases horder : env.buy_order with
      | raises msg => simp [execute_trade, h1a, h1b, horder]
      | response err txid =>
        by_cases herr : err = []
        · simp [execute_trade, h1a, h1b, horder, herr]
        · simp [execute_trade, h1a, h1b, horder, herr]
    · by_cases h3 : signal = "sell"
      · subst h3
        cases horder : env.sell_order with
        | raises msg => simp [execute_trade, h1a, h1b, h2, horder]
        | response err txid =>
          by_cases herr : err = []
          · simp [execute_trade, h1a, h1b, h2, horder, herr]
          · simp [execute_trade, h1a, h1b, h2, horder, herr]
      · simp [execute_trade, h1a, h1b, h2, h3]

theorem execute_trade_last_action_success_only_witness :
    (execute_trade okEnv initBot "buy").1.status = .success ∧
    (execute_trade okEnv initBot "buy").2.last_action = "buy" :=
  ⟨by decide, (execute_trade_last_action_success_only okEnv initBot "buy").1 (by decide)⟩

/-- C8: the backtest boundary never lets an exception escape — its
result is always tagged `success` or `error` — and both an empty bar
series and an internal failure such as a missing `close` column produce
a result tagged `error` with a human-readable reason. -/
theorem backtest_error_tagged (sw lw : Nat) (data : BFrame) :
    (data.index = [] →
      (backtest sw lw data).status = .error ∧
      (backtest sw lw data).reason = some "No data available") ∧
    (data.close_col = none →
      (backtest sw lw data).status = .error ∧ (backtest sw lw data).reason ≠ none) ∧
    ((backtest sw lw data).status = .success ∨ (backtest sw lw data).status = .error) := by
  refine ⟨?_, ?_, ?_⟩
  · intro h
    simp [backtest, h]
  · intro h
    by_cases hi : data.index.length = 0
    · simp [backtest, hi]
    · simp [backtest, hi, backtestBody, h]
  · by_cases hi : data.index.length = 0
    · right
      simp [backtest, hi]
    · cases hb : backtestBody sw lw data with
      | ok m => left; simp [backtest, hi, hb]
      | error e => right; simp [backtest, hi, hb]

theorem backtest_error_tagged_witness :
    ({ index := [], close_col := none } : BFrame).index = [] ∧
    (backtest 20 50 { index := [], close_col := none }).status = .error ∧
    (backtest 20 50 { index := [], close_col := none }).reason = some "No data available" :=
  ⟨rfl,
    (backtest_error_tagged 20 50 { index := [], close_col := none }).1 rfl⟩

/-- C5: for every backtest run, `cumulative_return` equals the product
over all completed trades of `(1 + return_pct)` minus 1 — compounding,
not additive; a position still open when the series ends never records a
SELL trade and so contributes nothing to the product.  In particular a
run whose two completed trades return `0.10` and `-0.10` reports
`1.10 * 0.90 - 1 = -0.01`, not `0`. -/
theorem cumulative_return_compounds (signals : List Signal) (prices times : List ℚ) :
    ((metricsOf (simulate signals prices times).returns).cumulative_return =
      ((sellReturns (simulate signals prices times).trades).map (fun r => 1 + r)).prod - 1) ∧
    (metricsOf (simulate [.buy, .sell, .buy, .sell, .hold] [10, 11, 10, 9, 9]
        [0, 1, 2, 3, 4]).returns).cumulative_return = -(1 / 100) := by
  constructor
  · rcases Nat.eq_zero_or_pos signals.length with h0 | hpos
    · have hs : signals = [] := List.length_eq_zero.mp h0
      subst hs
      simp [simulate, simInit, metricsOf, sellReturns]
    · have hinit : SimInv signals.length 1 (simInit signals) := by
        refine ⟨by simp [simInit], ?_, ?_⟩
        · simp [simInit, sellReturns, prodFactor, List.map_replicate]
        · intro j _ hj
          simp [simInit, List.getElem?_replicate, hj]
      have h := sim_fold_inv signals prices times signals.length (signals.length - 1) 1
        (simInit signals) hinit (by omega)
      have harr : 1 + (signals.length - 1) = signals.length := by omega
      rw [harr] at h
      obtain ⟨-, hprod, -⟩ := h
      simp only [metricsOf, simulate]
      rw [hprod]
  · norm_num [simulate, simInit, simStep, metricsOf, prodFactor, List.range', List.getD,
      List.replicate, List.set]

/-- C2 (code bug evidence): the metrics block computes
`total_trades = len(returns[returns != 0])` over a Series whose unset
slots are NaN, and `NaN != 0` is elementwise `True` — so every bar
without a completed trade is counted as a trade.  On a 5-bar run with
exactly one completed, winning trade (return `1/10`), the code reports
`total_trades = 5` and `win_rate = 1/5`, although only one SELL trade
with nonzero return exists; the claim (and the code's own win-rate log
line `winning/total`) demands `total_trades = 1` and `win_rate = 1`. -/
theorem metrics_total_trades_counts_nan_slots :
    (metricsOf (simulate [.buy, .sell, .hold, .hold, .hold] [10, 11, 11, 11, 11]
        [0, 1, 2, 3, 4]).returns).total_trades = 5 ∧
    (metricsOf (simulate [.buy, .sell, .hold, .hold, .hold] [10, 11, 11, 11, 11]
        [0, 1, 2, 3, 4]).returns).winning_trades = 1 ∧
    (metricsOf (simulate [.buy, .sell, .hold, .hold, .hold] [10, 11, 11, 11, 11]
        [0, 1, 2, 3, 4]).returns).win_rate = 1 / 5 ∧
    ((sellReturns (simulate [.buy, .sell, .hold, .hold, .hold] [10, 11, 11, 11, 11]
        [0, 1, 2, 3, 4]).trades).filter (fun r => decide (r ≠ 0))).length = 1 := by
  norm_num [simulate, simInit, simStep, metricsOf, sellReturns, neZeroSlot, posSlot,
    negSlot, List.range', List.getD, List.replicate, List.set, List.filter]

/-- C9: neither `calculate_indicators` nor `generate_signal` mutates the
caller's frame.  Against an explicit object store, every frame object
that existed before the call is unchanged after it,
`calculate_indicators` returns a fresh handle (the freshly allocated
copy, distinct from every pre-existing handle) whose `close` and `index`
contents equal the input's, and `generate_signal` performs no store
write at all. -/
theorem calculate_indicators_no_mutation (sw lw : Nat) (store : List Frame) (dataH h : Nat)
    (hh : h < store.length) :
    ((calculate_indicators_heap sw lw store dataH).1[h]? = store[h]?) ∧
    ((calculate_indicators_heap sw lw store dataH).2 = store.length) ∧
    (((calculate_indicators_heap sw lw store dataH).1.getD
        (calculate_indicators_heap sw lw store dataH).2 default).close =
      (store.getD dataH default).close) ∧
    (((calculate_indicators_heap sw lw store dataH).1.getD
        (calculate_indicators_heap sw lw store dataH).2 default).index =
      (store.getD dataH default).index) ∧
    (∀ (store2 : List Frame) (dataH2 : Nat),
      (generate_signal_heap sw lw store2 dataH2).1 = store2) := by
  have hne : store.length ≠ h := by omega
  have hlt : store.length < (store ++ [store.getD dataH default]).length := by simp
  have hget : (store ++ [store.getD dataH default])[store.length]? =
      some (store.getD dataH default) := List.getElem?_concat_length store _
  refine ⟨?_, rfl, ?_, ?_, fun store2 dataH2 => rfl⟩
  · simp only [calculate_indicators_heap, heapWrite]
    rw [List.getElem?_set_ne hne, List.getElem?_set_ne hne, List.getElem?_set_ne hne,
      List.getElem?_append]
    simp [hh]
  · simp only [calculate_indicators_heap, heapWrite]
    rw [List.getD_eq_getElem?_getD]
    rw [List.getElem?_set_eq_of_lt _ (by simpa using hlt)]
    simp [List.getD_eq_getElem?_getD, List.getElem?_set_eq_of_lt, hlt, hget]
  · simp only [calculate_indicators_heap, heapWrite]
    rw [List.getD_eq_getElem?_getD]
    rw [List.getElem?_set_eq_of_lt _ (by simpa using hlt)]
    simp [List.getD_eq_getElem?_getD, List.getElem?_set_eq_of_lt, hlt, hget]

theorem calculate_indicators_no_mutation_witness :
    0 < ([{ index := [0], close := [1] }] : List Frame).length ∧
    (calculate_indicators_heap 20 50 [{ index := [0], close := [1] }] 0).1[0]? =
      ([{ index := [0], close := [1] }] : List Frame)[0]? ∧
    (calculate_indicators_heap 20 50 [{ index := [0], close := [1] }] 0).2 = 1 :=
  ⟨by decide,
    (calculate_indicators_no_mutation 20 50 [{ index := [0], close := [1] }] 0 0
      (by decide)).1,
    (calculate_indicators_no_mutation 20 50 [{ index := [0], close := [1] }] 0 0
      (by decide)).2.1⟩

end Tradingbot
